import Mathlib

/-!
Shallow embedding of the cost-anomaly aggregation core of
`src/v1_base_with_modal.py` (classes `CostUsageDataPoint`, `RootCauseEntry`,
`AnomalyEntry`, functions `fetch_anomalies` and
`fetch_cost_usage_for_root_cause`).

Modelling conventions:
* Calendar dates are integers (day numbers); a raw timestamp is a day number
  together with an ignored time-of-day part, which models the Python
  `s.split('T')[0]` / `strptime('%Y-%m-%d')` date-only parsing (subtraction of
  two midnight datetimes yields exactly the difference of the day numbers).
* Python floats are modelled by exact rationals; `f"{x:.2f}"` is modelled by
  `fmt2`, decimal rounding with ties away from zero, which agrees with CPython
  on the values used in this development (e.g. `f"{12.345:.2f} == '12.35'`).
* Dynamic dicts accessed with `.get(k, default)` become structures with
  `Option` fields read through `Option.getD`; bracket access `d[k]` becomes
  `req`, which raises `PyErr.keyError` when the field is absent.
* The two boto3 calls are oracles passed in as functions returning `Except`;
  an `Except.error` models the call (or the parsing of its response) raising.
* The unbounded `while True` pagination loop is embedded with explicit fuel:
  `Option.none` as overall result means the loop has not terminated within the
  given number of iterations.
* Each usage fetch records the single query it issued (`FetchOut.queries`) and
  the service label it logged on failure (`FetchOut.log`), making "which
  queries were sent" and "what was logged" provable facts.
-/

namespace AwsAnomaly

/-- Python exception kinds raised by the modelled code paths. -/
inductive PyErr
  | keyError
  | valueError
  | typeError
deriving DecidableEq

/-- A raw JSON-ish scalar as found in the API records: absent/None, a number,
or a string. -/
inductive PyVal
  | null
  | num (q : ℚ)
  | str (s : String)
deriving DecidableEq

/-- Python truthiness of a raw scalar: `None`, `0` and `""` are falsy. -/
def PyVal.truthy : PyVal → Bool
  | .null => false
  | .num q => q != 0
  | .str s => s != ""

/-- Python truthiness of an optional string (`None` and `""` are falsy). -/
def truthyOpt : Option String → Bool
  | Option.none => false
  | some s => s != ""

/-- Value of a list of decimal digit characters. -/
def digitsVal (cs : List Char) : Nat :=
  cs.foldl (fun a c => a * 10 + (c.toNat - 48)) 0

/-- Decimal-literal fragment of Python `float(str)`: optional sign, integer
part, optional fractional part.  Returns `Option.none` on any other string,
modelling the `ValueError` that `float` raises on a non-numeric string.  The
value is assembled with integer arithmetic and `mkRat` so that it evaluates
by kernel reduction. -/
def parseFloatStr (s : String) : Option ℚ :=
  let cs := s.data
  let signed : Bool × List Char :=
    match cs with
    | '-' :: r => (true, r)
    | '+' :: r => (false, r)
    | r => (false, r)
  let sgn : Int := if signed.1 then -1 else 1
  let ip := signed.2.takeWhile (fun c => c.isDigit)
  let rest := signed.2.dropWhile (fun c => c.isDigit)
  match rest with
  | [] =>
    if ip.isEmpty then Option.none else some (mkRat (sgn * (digitsVal ip : Int)) 1)
  | '.' :: fr =>
    if fr.all (fun c => c.isDigit) && !(ip.isEmpty && fr.isEmpty) then
      let scale : Nat := 10 ^ fr.length
      some (mkRat (sgn * ((digitsVal ip * scale + digitsVal fr : Nat) : Int)) scale)
    else Option.none
  | _ => Option.none

/-- Python `float(x)` on a raw scalar: numbers pass through, numeric strings
parse, non-numeric strings raise `ValueError`, `None` raises `TypeError`. -/
def pyFloat : PyVal → Except PyErr ℚ
  | .num q => .ok q
  | .str s =>
    match parseFloatStr s with
    | some q => .ok q
    | Option.none => .error .valueError
  | .null => .error .typeError

/-- Round the fraction `a / b` (with `b > 0`) to the nearest integer, ties
away from zero, using only integer arithmetic. -/
def roundHalfAway (a : Int) (b : Nat) : Int :=
  if a < 0 then -((2 * (-a) + (b : Int)).fdiv (2 * (b : Int)))
  else (2 * a + (b : Int)).fdiv (2 * (b : Int))

/-- Two-digit zero-padded rendering of a value below 100. -/
def pad2 (n : Nat) : String := if n < 10 then "0" ++ toString n else toString n

/-- Model of Python `f"{x:.2f}"`: fixed two-decimal rendering of a number,
computed as the half-away rounding of `100 * q` over the reduced fraction. -/
def fmt2 (q : ℚ) : String :=
  let r := roundHalfAway (100 * q.num) q.den
  let n := r.natAbs
  (if r < 0 then "-" else "") ++ toString (n / 100) ++ "." ++ pad2 (n % 100)

/-- Model of `x or 1` on the integer `x = (end - start).days + 1`: Python keeps
`x` whenever it is truthy (non-zero), and substitutes `1` only for `0`. -/
def pyOrOne (d : Int) : Int := if d = 0 then 1 else d

/-- A raw API timestamp: the calendar day number plus an ignored time-of-day
component (the code keeps only the part before `'T'`). -/
structure Timestamp where
  date : Int
  timeOfDay : Option String
deriving DecidableEq

/-- Bracket access `d[key]`: raises `KeyError` when the key is absent. -/
def req {α : Type} : Option α → Except PyErr α
  | Option.none => .error .keyError
  | some a => .ok a

/-- `class CostUsageDataPoint` (source lines 19-23). -/
structure CostUsageDataPoint where
  Date : String
  Amount : String
  Unit : String
deriving DecidableEq

/-- `class RootCauseEntry` (source lines 25-34), after `__init__`. -/
structure RootCauseEntry where
  Service : Option String
  Region : Option String
  UsageType : Option String
  LinkedAccount : Option String
  LinkedAccountName : Option String
  Tags : List (String × String)
  CostImpact : String
  CostUsageGraph : List CostUsageDataPoint
deriving DecidableEq

/-- `class AnomalyEntry` (source lines 36-46), after `__init__`. -/
structure AnomalyEntry where
  AnomalyId : Option String
  StartDate : Timestamp
  EndDate : Timestamp
  LastDetectedDate : Timestamp
  DurationInDays : Int
  TotalCostImpact : String
  AverageDailyCost : String
  Currency : String
  RootCauses : List RootCauseEntry
deriving DecidableEq

/-- The fields `RootCauseEntry.__init__` always sets the same way; used to
state what a successfully constructed entry looks like. -/
def plainRootCause (service region usage_type linked_account linked_account_name :
    Option String) (cost_impact : String) : RootCauseEntry :=
  { Service := service
    Region := region
    UsageType := usage_type
    LinkedAccount := linked_account
    LinkedAccountName := linked_account_name
    Tags := [("Environment", "Production"), ("Owner", "FinanceTeam")]
    CostImpact := cost_impact
    CostUsageGraph := [] }

/-- `RootCauseEntry.__init__` (source lines 26-34).  Line 33:
`self.CostImpact = f"{float(cost_impact):.2f}" if cost_impact else "0.00"`.
The `float` call can raise `ValueError`, which `__init__` does not catch. -/
def mkRootCauseEntry (service region usage_type linked_account linked_account_name :
    Option String) (cost_impact : PyVal) : Except PyErr RootCauseEntry := do
  let ci ←
    if cost_impact.truthy then do
      let x ← pyFloat cost_impact
      pure (fmt2 x)
    else
      pure "0.00"
  .ok (plainRootCause service region usage_type linked_account linked_account_name ci)

/-- `AnomalyEntry.__init__` (source lines 37-46). -/
def mkAnomalyEntry (anomaly_id : Option String) (start_date end_date : Timestamp)
    (impact : ℚ) (duration : Int) (root_causes : List RootCauseEntry) : AnomalyEntry :=
  { AnomalyId := anomaly_id
    StartDate := start_date
    EndDate := end_date
    LastDetectedDate := end_date
    DurationInDays := duration
    TotalCostImpact := fmt2 impact
    AverageDailyCost := if duration > 0 then fmt2 (impact / (duration : ℚ)) else fmt2 impact
    Currency := "USD"
    RootCauses := root_causes }

/-- One `{'Dimensions': {'Key': key, 'Values': [value]}}` clause. -/
structure DimClause where
  Key : String
  Values : List String
deriving DecidableEq

/-- The `Filter` argument of the usage query: either a bare dimension clause
(`filter_list[0]`) or a conjunction (`{'And': filter_list}`). -/
inductive Filter
  | dims (clause : DimClause)
  | and (clauses : List DimClause)
deriving DecidableEq

/-- `add_filter(key, value)` (source lines 109-116): append an equality clause
when the value is truthy. -/
def addFilter (key : String) (value : Option String) (filter_list : List DimClause) :
    List DimClause :=
  if truthyOpt value then filter_list ++ [{ Key := key, Values := [value.getD ""] }]
  else filter_list

/-- The four `add_filter` calls (source lines 118-121), in source order. -/
def buildFilterList (root_cause : RootCauseEntry) : List DimClause :=
  addFilter "LINKED_ACCOUNT" root_cause.LinkedAccount
    (addFilter "USAGE_TYPE" root_cause.UsageType
      (addFilter "REGION" root_cause.Region
        (addFilter "SERVICE" root_cause.Service [])))

/-- Filter selection (source lines 123-128): single clause, `And` wrapper, or
no filter at all. -/
def buildFilters (root_cause : RootCauseEntry) : Option Filter :=
  match buildFilterList root_cause with
  | [] => Option.none
  | [f] => some (Filter.dims f)
  | fs => some (Filter.and fs)

/-- The parameters of a `get_cost_and_usage` call (source lines 131-139). -/
structure UsageQuery where
  TimePeriodStart : Int
  TimePeriodEnd : Int
  Granularity : String
  Metrics : List String
  Filter : Option Filter
deriving DecidableEq

/-- Query construction inside `fetch_cost_usage_for_root_cause`: daily
granularity, unblended cost, window `[start, end + 1 day)`. -/
def buildUsageQuery (start_date end_date : Int) (root_cause : RootCauseEntry) :
    UsageQuery :=
  { TimePeriodStart := start_date
    TimePeriodEnd := end_date + 1
    Granularity := "DAILY"
    Metrics := ["UnblendedCost"]
    Filter := buildFilters root_cause }

/-- `time_period['TimePeriod']` sub-record of a response bucket. -/
structure TimePeriodRecord where
  Start : Option String
deriving DecidableEq

/-- `{'Amount': ..., 'Unit': ...}` metric value; both keys may be absent. -/
structure MetricAmount where
  Amount : Option String
  Unit : Option String
deriving DecidableEq

/-- `time_period['Total']`: metric name to metric value, possibly absent. -/
structure TotalRecord where
  UnblendedCost : Option MetricAmount
deriving DecidableEq

/-- One daily bucket of a `get_cost_and_usage` response. -/
structure Bucket where
  TimePeriod : Option TimePeriodRecord
  Total : Option TotalRecord
deriving DecidableEq

/-- A `get_cost_and_usage` response; `ResultsByTime` is read with bracket
access, so its absence is a (caught) `KeyError`. -/
structure UsageResponse where
  ResultsByTime : Option (List Bucket)
deriving DecidableEq

/-- The result-mapping loop (source lines 141-148): one point per bucket, in
order; any missing required key aborts the whole loop with `KeyError`. -/
def parsePoints : List Bucket → Except PyErr (List CostUsageDataPoint)
  | [] => .ok []
  | time_period :: rest => do
    let total ← req time_period.Total
    let amount_data := total.UnblendedCost.getD { Amount := Option.none, Unit := Option.none }
    let tp ← req time_period.TimePeriod
    let point_date ← req tp.Start
    let points ← parsePoints rest
    .ok ({ Date := point_date
           Amount := amount_data.Amount.getD "0"
           Unit := amount_data.Unit.getD "USD" } :: points)

/-- Observable outcome of one `fetch_cost_usage_for_root_cause` call: the
returned points, the queries it issued (always exactly one), and the service
labels it logged on failure. -/
structure FetchOut where
  points : List CostUsageDataPoint
  queries : List UsageQuery
  log : List (Option String)
deriving DecidableEq

/-- `fetch_cost_usage_for_root_cause` (source lines 106-153).  The whole call
and response parse sit in one `try`; any error is logged with the root cause's
service label and turned into an empty point list. -/
def fetch_cost_usage_for_root_cause
    (client : UsageQuery → Except PyErr UsageResponse)
    (start_date end_date : Int) (root_cause : RootCauseEntry) : FetchOut :=
  let q := buildUsageQuery start_date end_date root_cause
  match (do
      let response ← client q
      let buckets ← req response.ResultsByTime
      parsePoints buckets : Except PyErr (List CostUsageDataPoint)) with
  | .ok points => { points := points, queries := [q], log := [] }
  | .error _ => { points := [], queries := [q], log := [root_cause.Service] }

/-- `{'Impact': {'TotalImpact': ...}}` on an anomaly record. -/
structure ImpactRecord where
  TotalImpact : Option PyVal
deriving DecidableEq

/-- `{'Impact': {'Contribution': ...}}` on a root-cause record. -/
structure RCImpactRecord where
  Contribution : Option PyVal
deriving DecidableEq

/-- A raw root-cause record of the listing response (source lines 73-81). -/
structure RootCauseRecord where
  Service : Option String
  Region : Option String
  UsageType : Option String
  LinkedAccount : Option String
  LinkedAccountName : Option String
  Impact : Option RCImpactRecord
deriving DecidableEq

/-- A raw anomaly record of the listing response.  `AnomalyStartDate` and
`AnomalyEndDate` are read with bracket access and parsed, so they are required
fields; the others default. -/
structure AnomalyRecord where
  AnomalyId : Option String
  AnomalyStartDate : Timestamp
  AnomalyEndDate : Timestamp
  Impact : Option ImpactRecord
  RootCauses : Option (List RootCauseRecord)
deriving DecidableEq

/-- One page of the `get_anomalies` listing response. -/
structure ListResponse where
  Anomalies : Option (List AnomalyRecord)
  NextPageToken : Option String
deriving DecidableEq

/-- `anomaly.get('Impact', {}).get('TotalImpact', 0)` (source line 70). -/
def totalImpactVal (anomaly : AnomalyRecord) : PyVal :=
  ((anomaly.Impact.getD { TotalImpact := Option.none }).TotalImpact).getD (PyVal.num 0)

/-- `rc.get('Impact', {}).get('Contribution', 0)` (source line 80). -/
def contributionVal (rc : RootCauseRecord) : PyVal :=
  ((rc.Impact.getD { Contribution := Option.none }).Contribution).getD (PyVal.num 0)

/-- The per-root-cause loop body (source lines 73-87): build the entry, fetch
its usage series, attach it, append.  Entry-construction errors propagate. -/
def processRootCauses (client : UsageQuery → Except PyErr UsageResponse)
    (anomaly_start anomaly_end : Int) :
    List RootCauseRecord → Except PyErr (List RootCauseEntry × List UsageQuery)
  | [] => .ok ([], [])
  | rc :: rest => do
    let root_cause ← mkRootCauseEntry rc.Service rc.Region rc.UsageType
      rc.LinkedAccount rc.LinkedAccountName (contributionVal rc)
    let fo := fetch_cost_usage_for_root_cause client anomaly_start anomaly_end root_cause
    let (entries, queries) ← processRootCauses client anomaly_start anomaly_end rest
    .ok ({ root_cause with CostUsageGraph := fo.points } :: entries, fo.queries ++ queries)

/-- The per-anomaly body of the listing loop (source lines 65-98): date-only
parsing, `duration = (end - start).days + 1 or 1`, impact with default `0`,
root-cause resolution, entry construction.  Also returns the usage queries
issued while resolving this anomaly. -/
def processAnomaly (client : UsageQuery → Except PyErr UsageResponse)
    (anomaly : AnomalyRecord) : Except PyErr (AnomalyEntry × List UsageQuery) := do
  let anomaly_start := anomaly.AnomalyStartDate.date
  let anomaly_end := anomaly.AnomalyEndDate.date
  let duration := pyOrOne (anomaly_end - anomaly_start + 1)
  let impact ← pyFloat (totalImpactVal anomaly)
  let (root_causes, queries) ←
    processRootCauses client anomaly_start anomaly_end (anomaly.RootCauses.getD [])
  .ok (mkAnomalyEntry anomaly.AnomalyId anomaly.AnomalyStartDate anomaly.AnomalyEndDate
        impact duration root_causes, queries)

/-- All anomalies of one page, in arrival order. -/
def processAnomalies (client : UsageQuery → Except PyErr UsageResponse) :
    List AnomalyRecord → Except PyErr (List AnomalyEntry × List UsageQuery)
  | [] => .ok ([], [])
  | a :: rest => do
    let (entry, qs) ← processAnomaly client a
    let (entries, qss) ← processAnomalies client rest
    .ok (entry :: entries, qs ++ qss)

/-- The two boto3 request kinds used by the aggregator. -/
structure ClientModel where
  get_anomalies : Option String → Except PyErr ListResponse
  get_cost_and_usage : UsageQuery → Except PyErr UsageResponse

/-- `request['NextPageToken'] = next_token` happens only `if next_token`
(source lines 60-61): falsy tokens are not sent. -/
def reqToken (next_token : Option String) : Option String :=
  if truthyOpt next_token then next_token else Option.none

/-- The `while True` pagination loop of `fetch_anomalies` (source lines
56-102), with explicit fuel.  Carries the accumulated output and the number of
`get_anomalies` calls made; `Option.none` means the loop has not terminated
within `fuel` iterations.  A listing error or a processing error propagates
(is `some (.error e)`), exactly as in the source, where nothing catches it. -/
def fetchAnomaliesGo (c : ClientModel) :
    Nat → Option String → List AnomalyEntry → Nat →
    Option (Except PyErr (List AnomalyEntry × Nat))
  | 0, _, _, _ => Option.none
  | fuel + 1, next_token, output, calls =>
    match c.get_anomalies (reqToken next_token) with
    | .error e => some (.error e)
    | .ok response =>
      match processAnomalies c.get_cost_and_usage (response.Anomalies.getD []) with
      | .error e => some (.error e)
      | .ok (entries, _) =>
        if truthyOpt response.NextPageToken then
          fetchAnomaliesGo c fuel response.NextPageToken (output ++ entries) (calls + 1)
        else
          some (.ok (output ++ entries, calls + 1))

/-- `fetch_anomalies` (source lines 48-104): start with no token, empty
output. -/
def fetch_anomalies (c : ClientModel) (fuel : Nat) :
    Option (Except PyErr (List AnomalyEntry × Nat)) :=
  fetchAnomaliesGo c fuel Option.none [] 0

/-- Modelled from the spec (section 4.3): the list of equality clauses for
exactly the present (non-null, non-empty) dimension values, in the fixed key
order SERVICE, REGION, USAGE_TYPE, LINKED_ACCOUNT.  Used only to compare the
source's filter construction against the spec's wording. -/
def presentDims (root_cause : RootCauseEntry) : List DimClause :=
  ([("SERVICE", root_cause.Service), ("REGION", root_cause.Region),
    ("USAGE_TYPE", root_cause.UsageType),
    ("LINKED_ACCOUNT", root_cause.LinkedAccount)]).filterMap
    (fun kv => if truthyOpt kv.2 then some { Key := kv.1, Values := [kv.2.getD ""] }
               else Option.none)

/-- A bucket from which the result mapping can read all required keys. -/
def bucketWellFormed (b : Bucket) : Bool :=
  b.Total.isSome &&
    (match b.TimePeriod with
     | some tp => tp.Start.isSome
     | Option.none => false)

/-- The point the result mapping emits for one well-formed bucket. -/
def bucketPoint (b : Bucket) : CostUsageDataPoint :=
  { Date := ((b.TimePeriod.getD { Start := Option.none }).Start).getD ""
    Amount := (((b.Total.getD { UnblendedCost := Option.none }).UnblendedCost).getD
      { Amount := Option.none, Unit := Option.none }).Amount.getD "0"
    Unit := (((b.Total.getD { UnblendedCost := Option.none }).UnblendedCost).getD
      { Amount := Option.none, Unit := Option.none }).Unit.getD "USD" }

/-- The pagination loop never finishes, whatever fuel it is given. -/
def neverTerminates (c : ClientModel) : Prop :=
  ∀ fuel : Nat, fetch_anomalies c fuel = Option.none

/-! Concrete fixtures used by witnesses and counterexamples. -/

/-- A usage client that always answers with an empty bucket list. -/
def trivialUsageClient : UsageQuery → Except PyErr UsageResponse :=
  fun _ => .ok { ResultsByTime := some [] }

/-- A timestamp at day 0 with no time-of-day part. -/
def t0 : Timestamp := { date := 0, timeOfDay := Option.none }

/-- An anomaly record whose end date precedes its start date by three days. -/
def negDurationRecord : AnomalyRecord :=
  { AnomalyId := Option.none
    AnomalyStartDate := { date := 5, timeOfDay := Option.none }
    AnomalyEndDate := { date := 2, timeOfDay := Option.none }
    Impact := Option.none
    RootCauses := Option.none }

/-- A well-formed anomaly record spanning days 1 to 3. -/
def posRecord : AnomalyRecord :=
  { AnomalyId := Option.none
    AnomalyStartDate := { date := 1, timeOfDay := Option.none }
    AnomalyEndDate := { date := 3, timeOfDay := Option.none }
    Impact := Option.none
    RootCauses := Option.none }

/-- The entry `posRecord` processes to. -/
def posEntry : AnomalyEntry :=
  mkAnomalyEntry Option.none { date := 1, timeOfDay := Option.none }
    { date := 3, timeOfDay := Option.none } 0 3 []

/-- A root-cause entry with no dimension values. -/
def emptyRootCauseEntry : RootCauseEntry :=
  plainRootCause Option.none Option.none Option.none Option.none Option.none "0.00"

/-- A raw root-cause record naming only a service, `AmazonEC2`. -/
def cR1 : RootCauseRecord :=
  { Service := some "AmazonEC2", Region := Option.none, UsageType := Option.none
    LinkedAccount := Option.none, LinkedAccountName := Option.none, Impact := Option.none }

/-- A raw root-cause record naming only a service, `AmazonS3`. -/
def cR2 : RootCauseRecord :=
  { Service := some "AmazonS3", Region := Option.none, UsageType := Option.none
    LinkedAccount := Option.none, LinkedAccountName := Option.none, Impact := Option.none }

/-- The entry `cR1` resolves to. -/
def cEn1 : RootCauseEntry :=
  plainRootCause (some "AmazonEC2") Option.none Option.none Option.none Option.none "0.00"

/-- The entry `cR2` resolves to. -/
def cEn2 : RootCauseEntry :=
  plainRootCause (some "AmazonS3") Option.none Option.none Option.none Option.none "0.00"

/-- An anomaly record over days 0 to 1 with root causes `cR1` and `cR2`. -/
def sibRecord : AnomalyRecord :=
  { AnomalyId := some "anomaly-2"
    AnomalyStartDate := t0
    AnomalyEndDate := { date := 1, timeOfDay := Option.none }
    Impact := Option.none
    RootCauses := some [cR1, cR2] }

/-- A fully populated response bucket. -/
def goodBucket : Bucket :=
  { TimePeriod := some { Start := some "2025-01-01" }
    Total := some { UnblendedCost := some { Amount := some "1.23", Unit := some "USD" } } }

/-- A response with three well-formed buckets. -/
def resp3 : UsageResponse := { ResultsByTime := some [goodBucket, goodBucket, goodBucket] }

/-- The points `resp3` maps to. -/
def cPts : List CostUsageDataPoint :=
  [{ Date := "2025-01-01", Amount := "1.23", Unit := "USD" },
   { Date := "2025-01-01", Amount := "1.23", Unit := "USD" },
   { Date := "2025-01-01", Amount := "1.23", Unit := "USD" }]

/-- A usage client that fails on the `AmazonEC2` service filter and answers
`resp3` otherwise. -/
def sibClient : UsageQuery → Except PyErr UsageResponse := fun q =>
  if q.Filter = some (Filter.dims { Key := "SERVICE", Values := ["AmazonEC2"] }) then
    .error .keyError
  else .ok resp3

/-- A usage client that always answers `resp3`. -/
def ok3Client : UsageQuery → Except PyErr UsageResponse := fun _ => .ok resp3

/-- A usage client whose responses lack the `ResultsByTime` key, so parsing
them raises `KeyError` inside the try block. -/
def noResultsClient : UsageQuery → Except PyErr UsageResponse :=
  fun _ => .ok { ResultsByTime := Option.none }

/-- A response bucket missing its `Total` key: reading it raises `KeyError`
inside the result-mapping loop. -/
def badBucket : Bucket :=
  { TimePeriod := some { Start := some "2025-01-01" }, Total := Option.none }

/-- A usage client that answers with a single malformed bucket. -/
def badBucketClient : UsageQuery → Except PyErr UsageResponse :=
  fun _ => .ok { ResultsByTime := some [badBucket] }

/-- A listing client serving four pages chained by tokens A, B, C. -/
def fixtureClient : ClientModel :=
  { get_anomalies := fun tok =>
      match tok with
      | Option.none => .ok { Anomalies := some [], NextPageToken := some "A" }
      | some "A" => .ok { Anomalies := some [], NextPageToken := some "B" }
      | some "B" => .ok { Anomalies := some [], NextPageToken := some "C" }
      | some "C" => .ok { Anomalies := some [], NextPageToken := Option.none }
      | _ => .error .keyError
    get_cost_and_usage := trivialUsageClient }

/-- A listing client that returns the same continuation token forever. -/
def repeatTokenClient : ClientModel :=
  { get_anomalies := fun _ => .ok { Anomalies := some [], NextPageToken := some "A" }
    get_cost_and_usage := trivialUsageClient }

/-- A listing client that returns a single page with no token. -/
def haltClient : ClientModel :=
  { get_anomalies := fun _ => .ok { Anomalies := some [], NextPageToken := Option.none }
    get_cost_and_usage := trivialUsageClient }

/-- An anomaly record carrying no root-causes field at all. -/
def noRootCausesRecord : AnomalyRecord :=
  { AnomalyId := some "anomaly-1"
    AnomalyStartDate := t0
    AnomalyEndDate := { date := 2, timeOfDay := Option.none }
    Impact := Option.none
    RootCauses := Option.none }

/-! Helper lemmas. -/

/-- Bind on a successful `Except` computation. -/
theorem exBindOk {ε α β : Type} (a : α) (f : α → Except ε β) :
    (Bind.bind (Except.ok a) f : Except ε β) = f a := rfl

/-- Bind on a failed `Except` computation. -/
theorem exBindErr {ε α β : Type} (e : ε) (f : α → Except ε β) :
    (Bind.bind (Except.error e) f : Except ε β) = Except.error e := rfl

/-- Claim C2 (amended): `RootCauseEntry` construction formats a truthy numeric
contribution to a 2-decimal string; a falsy contribution (absent, zero or the
empty string) defaults to `"0.00"`; but a truthy non-numeric contribution
raises `ValueError` out of the construction instead of defaulting. -/
theorem c2_theorem (service region usage_type linked_account linked_account_name :
    Option String) (c : PyVal) :
    (c.truthy = false →
      mkRootCauseEntry service region usage_type linked_account linked_account_name c
        = .ok (plainRootCause service region usage_type linked_account
            linked_account_name "0.00"))
    ∧ (∀ q : ℚ, c.truthy = true → pyFloat c = .ok q →
      mkRootCauseEntry service region usage_type linked_account linked_account_name c
        = .ok (plainRootCause service region usage_type linked_account
            linked_account_name (fmt2 q)))
    ∧ (∀ err : PyErr, c.truthy = true → pyFloat c = .error err →
      mkRootCauseEntry service region usage_type linked_account linked_account_name c
        = .error err) := by
  refine ⟨?_, ?_, ?_⟩
  · intro h
    unfold mkRootCauseEntry
    rw [h]
    rfl
  · intro q ht hq
    unfold mkRootCauseEntry
    rw [ht, hq]
    rfl
  · intro err ht hq
    unfold mkRootCauseEntry
    rw [ht, hq]
    rfl

/-- Claim C2, refuting the original statement: the contribution value `"abc"`
is non-numeric and truthy, and root-cause construction raises `ValueError` on
it rather than defaulting to `"0.00"`. -/
theorem c2_counterexample :
    mkRootCauseEntry Option.none Option.none Option.none Option.none Option.none
      (PyVal.str "abc") = .error PyErr.valueError
    ∧ (PyVal.str "abc").truthy = true := ⟨rfl, rfl⟩

/-- Claim C2, witness: concrete instances of the three branches, including the
spec's own example `12.345 ↦ "12.35"`. -/
theorem c2_witness :
    (mkRootCauseEntry (some "svc") Option.none Option.none Option.none Option.none
      PyVal.null
      = .ok (plainRootCause (some "svc") Option.none Option.none Option.none
          Option.none "0.00"))
    ∧ (mkRootCauseEntry Option.none Option.none Option.none Option.none Option.none
        (PyVal.str "12.345")
        = .ok (plainRootCause Option.none Option.none Option.none Option.none
            Option.none (fmt2 (mkRat 12345 1000))))
    ∧ fmt2 (mkRat 12345 1000) = "12.35"
    ∧ mkRootCauseEntry Option.none Option.none Option.none Option.none Option.none
        (PyVal.str "12x") = .error PyErr.valueError :=
  ⟨(c2_theorem (some "svc") Option.none Option.none Option.none Option.none
      PyVal.null).1 rfl,
   (c2_theorem Option.none Option.none Option.none Option.none Option.none
      (PyVal.str "12.345")).2.1 (mkRat 12345 1000) rfl rfl,
   by decide,
   (c2_theorem Option.none Option.none Option.none Option.none Option.none
      (PyVal.str "12x")).2.2 PyErr.valueError rfl rfl⟩

/-- Claim C4: the filter list contains exactly the present (non-null,
non-empty) dimension values in the fixed key order SERVICE, REGION,
USAGE_TYPE, LINKED_ACCOUNT, and the filter sent is nothing, a single equality
clause, or an `And` of the clauses, according to how many are present. -/
theorem c4_theorem (root_cause : RootCauseEntry) :
    buildFilterList root_cause = presentDims root_cause
    ∧ buildFilters root_cause
      = (match presentDims root_cause with
         | [] => Option.none
         | [f] => some (Filter.dims f)
         | fs => some (Filter.and fs)) := by
  have h : buildFilterList root_cause = presentDims root_cause := by
    unfold buildFilterList presentDims addFilter
    simp only [List.filterMap_cons, List.filterMap_nil]
    cases hs : truthyOpt root_cause.Service <;>
      cases hr : truthyOpt root_cause.Region <;>
        cases hu : truthyOpt root_cause.UsageType <;>
          cases hl : truthyOpt root_cause.LinkedAccount <;>
            simp [hs, hr, hu, hl]
  refine ⟨h, ?_⟩
  unfold buildFilters
  rw [h]

/-- Claim C6: for an anomaly entry, the average daily cost is the 2-decimal
formatting of `impact / duration` whenever `duration > 0`, and equals the
formatted total impact when `duration = 0` (the division is guarded); it is
defined in every case by construction. -/
theorem c6_theorem (anomaly_id : Option String) (sd ed : Timestamp) (impact : ℚ)
    (duration : Int) (rcs : List RootCauseEntry) :
    (0 < duration →
      (mkAnomalyEntry anomaly_id sd ed impact duration rcs).AverageDailyCost
        = fmt2 (impact / (duration : ℚ)))
    ∧ (duration = 0 →
      (mkAnomalyEntry anomaly_id sd ed impact duration rcs).AverageDailyCost
        = (mkAnomalyEntry anomaly_id sd ed impact duration rcs).TotalCostImpact) := by
  constructor
  · intro h
    show (if duration > 0 then fmt2 (impact / (duration : ℚ)) else fmt2 impact) = _
    rw [if_pos h]
  · intro h
    subst h
    rfl

/-- Claim C6, witness: both branches at concrete durations 2 and 0. -/
theorem c6_witness :
    (mkAnomalyEntry Option.none t0 t0 (10 : ℚ) 2 []).AverageDailyCost
      = fmt2 ((10 : ℚ) / ((2 : Int) : ℚ))
    ∧ (mkAnomalyEntry Option.none t0 t0 (7 : ℚ) 0 []).AverageDailyCost
      = (mkAnomalyEntry Option.none t0 t0 (7 : ℚ) 0 []).TotalCostImpact :=
  ⟨(c6_theorem Option.none t0 t0 10 2 []).1 (by decide),
   (c6_theorem Option.none t0 t0 7 0 []).2 rfl⟩

/-- Claim C7: every usage query carries granularity `DAILY`, metric
`UnblendedCost`, window start equal to the anomaly start date and window end
equal to the anomaly end date plus one day; the fetch issues exactly this
query; and for a single-day anomaly the window has width exactly 1 day. -/
theorem c7_theorem (start_date end_date : Int) (root_cause : RootCauseEntry) :
    (buildUsageQuery start_date end_date root_cause).Granularity = "DAILY"
    ∧ (buildUsageQuery start_date end_date root_cause).Metrics = ["UnblendedCost"]
    ∧ (buildUsageQuery start_date end_date root_cause).TimePeriodStart = start_date
    ∧ (buildUsageQuery start_date end_date root_cause).TimePeriodEnd = end_date + 1
    ∧ (∀ client : UsageQuery → Except PyErr UsageResponse,
        (fetch_cost_usage_for_root_cause client start_date end_date root_cause).queries
          = [buildUsageQuery start_date end_date root_cause])
    ∧ (start_date = end_date →
        (buildUsageQuery start_date end_date root_cause).TimePeriodEnd
          - (buildUsageQuery start_date end_date root_cause).TimePeriodStart = 1) := by
  refine ⟨rfl, rfl, rfl, rfl, ?_, ?_⟩
  · intro client
    simp only [fetch_cost_usage_for_root_cause]
    split <;> rfl
  · intro h
    subst h
    show start_date + 1 - start_date = 1
    omega

/-- Claim C1 (amended): the processed entry's duration equals
`(end - start) + 1` over the date-only parts, with only an exactly-zero span
replaced by 1; hence it is at least 1 whenever the end date is no earlier than
one day before the start date, but it is negative (not floored) when the end
date precedes the start date by more than one day. -/
theorem c1_theorem (client : UsageQuery → Except PyErr UsageResponse)
    (a : AnomalyRecord) (entry : AnomalyEntry) (qs : List UsageQuery)
    (h : processAnomaly client a = .ok (entry, qs)) :
    entry.DurationInDays
      = pyOrOne (a.AnomalyEndDate.date - a.AnomalyStartDate.date + 1)
    ∧ (a.AnomalyStartDate.date ≤ a.AnomalyEndDate.date + 1 →
        1 ≤ entry.DurationInDays)
    ∧ (a.AnomalyEndDate.date + 1 < a.AnomalyStartDate.date →
        entry.DurationInDays < 0) := by
  have hd : entry.DurationInDays
      = pyOrOne (a.AnomalyEndDate.date - a.AnomalyStartDate.date + 1) := by
    cases hi : pyFloat (totalImpactVal a) with
    | error e =>
      simp only [processAnomaly, hi, exBindErr] at h
      exact absurd h (by simp)
    | ok impact =>
      cases hp : processRootCauses client a.AnomalyStartDate.date a.AnomalyEndDate.date
          (a.RootCauses.getD []) with
      | error e =>
        simp only [processAnomaly, hi, hp, exBindOk, exBindErr] at h
        exact absurd h (by simp)
      | ok pr =>
        obtain ⟨rcs, qs2⟩ := pr
        simp only [processAnomaly, hi, hp, exBindOk] at h
        simp only [Except.ok.injEq, Prod.mk.injEq] at h
        obtain ⟨h1, _⟩ := h
        rw [← h1]
        rfl
  refine ⟨hd, ?_, ?_⟩
  · intro hle
    rw [hd]
    unfold pyOrOne
    split_ifs with hz <;> omega
  · intro hlt
    rw [hd]
    unfold pyOrOne
    split_ifs with hz <;> omega

/-- Claim C1, refuting the original statement: a record whose parsed end date
precedes its start date by three days processes to a duration of `-2`, which
is not floored to 1. -/
theorem c1_counterexample :
    (processAnomaly trivialUsageClient negDurationRecord).map
      (fun p => p.1.DurationInDays) = Except.ok (-2)
    ∧ ((-2 : Int) < 1) := ⟨rfl, by decide⟩

/-- Claim C1, witness: a record spanning days 1 to 3 gets duration at least
1. -/
theorem c1_witness : 1 ≤ posEntry.DurationInDays :=
  (c1_theorem trivialUsageClient posRecord posEntry [] rfl).2.1 (by decide)

/-- Claim C10: an anomaly record whose root-causes field is absent or an empty
list still processes successfully into an entry with an empty `RootCauses`
sequence, and no usage query is issued for it. -/
theorem c10_theorem (client : UsageQuery → Except PyErr UsageResponse)
    (a : AnomalyRecord) (qv : ℚ)
    (h : a.RootCauses = Option.none ∨ a.RootCauses = some [])
    (hi : pyFloat (totalImpactVal a) = .ok qv) :
    processAnomaly client a
      = .ok (mkAnomalyEntry a.AnomalyId a.AnomalyStartDate a.AnomalyEndDate qv
          (pyOrOne (a.AnomalyEndDate.date - a.AnomalyStartDate.date + 1)) [], []) := by
  have hrc : a.RootCauses.getD [] = [] := by
    rcases h with h | h <;> rw [h] <;> rfl
  simp only [processAnomaly, hi, hrc, processRootCauses, exBindOk]

/-- Claim C10, witness: a concrete record with no root-causes field processes
to an entry with no root causes and issues no usage queries. -/
theorem c10_witness :
    processAnomaly trivialUsageClient noRootCausesRecord
      = .ok (mkAnomalyEntry noRootCausesRecord.AnomalyId
          noRootCausesRecord.AnomalyStartDate noRootCausesRecord.AnomalyEndDate 0
          (pyOrOne (noRootCausesRecord.AnomalyEndDate.date
            - noRootCausesRecord.AnomalyStartDate.date + 1)) [], []) :=
  c10_theorem trivialUsageClient noRootCausesRecord 0 (Or.inl rfl) rfl

/-- A failing usage call produces an empty point list and a log entry with the
root cause's service label. -/
theorem fetchErr (client : UsageQuery → Except PyErr UsageResponse)
    (start_date end_date : Int) (root_cause : RootCauseEntry) (err : PyErr)
    (h : client (buildUsageQuery start_date end_date root_cause) = .error err) :
    fetch_cost_usage_for_root_cause client start_date end_date root_cause
      = { points := [], queries := [buildUsageQuery start_date end_date root_cause],
          log := [root_cause.Service] } := by
  simp only [fetch_cost_usage_for_root_cause, h, exBindErr]

/-- A successful usage call whose response parses yields exactly the parsed
points. -/
theorem fetchOk (client : UsageQuery → Except PyErr UsageResponse)
    (start_date end_date : Int) (root_cause : RootCauseEntry) (resp : UsageResponse)
    (buckets : List Bucket) (pts : List CostUsageDataPoint)
    (h1 : client (buildUsageQuery start_date end_date root_cause) = .ok resp)
    (h2 : resp.ResultsByTime = some buckets)
    (h3 : parsePoints buckets = .ok pts) :
    fetch_cost_usage_for_root_cause client start_date end_date root_cause
      = { points := pts, queries := [buildUsageQuery start_date end_date root_cause],
          log := [] } := by
  simp only [fetch_cost_usage_for_root_cause, h1, h2, h3, req, exBindOk]

/-- On well-formed buckets the result mapping succeeds and emits exactly one
point per bucket, in order. -/
theorem parsePoints_map (buckets : List Bucket)
    (hwf : ∀ b ∈ buckets, bucketWellFormed b = true) :
    parsePoints buckets = .ok (buckets.map bucketPoint) := by
  induction buckets with
  | nil => rfl
  | cons b rest ih =>
    have hb := hwf b (List.mem_cons_self b rest)
    have hrest : ∀ x ∈ rest, bucketWellFormed x = true :=
      fun x hx => hwf x (List.mem_cons_of_mem b hx)
    cases ht : b.Total with
    | none =>
      simp only [bucketWellFormed, ht] at hb
      exact absurd hb (by simp)
    | some t =>
      cases htp : b.TimePeriod with
      | none =>
        simp only [bucketWellFormed, htp] at hb
        exact absurd hb (by simp)
      | some tp =>
        cases hst : tp.Start with
        | none =>
          simp only [bucketWellFormed, htp, hst] at hb
          exact absurd hb (by simp)
        | some st =>
          simp only [parsePoints, ht, htp, hst, req, exBindOk, ih hrest,
            List.map_cons, bucketPoint, Option.getD]

/-- Claim C8: for a response carrying well-formed buckets, the fetch emits one
`UsagePoint` per bucket in returned order — date from the bucket start,
amount defaulting to `"0"`, unit defaulting to `"USD"` — and the output length
equals the bucket count. -/
theorem c8_theorem (client : UsageQuery → Except PyErr UsageResponse)
    (start_date end_date : Int) (root_cause : RootCauseEntry) (resp : UsageResponse)
    (buckets : List Bucket)
    (h1 : client (buildUsageQuery start_date end_date root_cause) = .ok resp)
    (h2 : resp.ResultsByTime = some buckets)
    (hwf : ∀ b ∈ buckets, bucketWellFormed b = true) :
    fetch_cost_usage_for_root_cause client start_date end_date root_cause
      = { points := buckets.map bucketPoint,
          queries := [buildUsageQuery start_date end_date root_cause], log := [] }
    ∧ (buckets.map bucketPoint).length = buckets.length := by
  refine ⟨fetchOk client start_date end_date root_cause resp buckets
    (buckets.map bucketPoint) h1 h2 (parsePoints_map buckets hwf), ?_⟩
  simp

/-- Claim C8, witness: three concrete buckets yield three points via the
bucket-to-point mapping. -/
theorem c8_witness :
    fetch_cost_usage_for_root_cause ok3Client 0 1 emptyRootCauseEntry
      = { points := [goodBucket, goodBucket, goodBucket].map bucketPoint,
          queries := [buildUsageQuery 0 1 emptyRootCauseEntry], log := [] }
    ∧ ([goodBucket, goodBucket, goodBucket].map bucketPoint).length
      = [goodBucket, goodBucket, goodBucket].length :=
  c8_theorem ok3Client 0 1 emptyRootCauseEntry resp3 [goodBucket, goodBucket, goodBucket]
    rfl rfl (by decide)

/-- Claim C3: every error raised inside the usage fetch's try block is caught
there — an error raised by the client call itself (network error or rejected
filter), a response with no `ResultsByTime` key, and a `KeyError` while
parsing a bucket all produce an empty point sequence plus a log entry carrying
the root cause's service label, and never propagate (the fetch is total by
construction); and on an anomaly with two root causes a failing first fetch
and a succeeding second one leave the anomaly produced with usage series `[]`
and the parsed points respectively. -/
theorem c3_theorem :
    (∀ (client : UsageQuery → Except PyErr UsageResponse) (s e : Int)
        (rc : RootCauseEntry) (err : PyErr),
      client (buildUsageQuery s e rc) = .error err →
      fetch_cost_usage_for_root_cause client s e rc
        = { points := [], queries := [buildUsageQuery s e rc], log := [rc.Service] })
    ∧ (∀ (client : UsageQuery → Except PyErr UsageResponse) (s e : Int)
        (rc : RootCauseEntry) (resp : UsageResponse),
      client (buildUsageQuery s e rc) = .ok resp →
      resp.ResultsByTime = Option.none →
      fetch_cost_usage_for_root_cause client s e rc
        = { points := [], queries := [buildUsageQuery s e rc], log := [rc.Service] })
    ∧ (∀ (client : UsageQuery → Except PyErr UsageResponse) (s e : Int)
        (rc : RootCauseEntry) (resp : UsageResponse) (buckets : List Bucket)
        (err : PyErr),
      client (buildUsageQuery s e rc) = .ok resp →
      resp.ResultsByTime = some buckets →
      parsePoints buckets = .error err →
      fetch_cost_usage_for_root_cause client s e rc
        = { points := [], queries := [buildUsageQuery s e rc], log := [rc.Service] })
    ∧ (∀ (client : UsageQuery → Except PyErr UsageResponse) (a : AnomalyRecord)
        (r1 r2 : RootCauseRecord) (en1 en2 : RootCauseEntry) (err : PyErr)
        (resp : UsageResponse) (buckets : List Bucket)
        (pts : List CostUsageDataPoint) (qv : ℚ),
      a.RootCauses = some [r1, r2] →
      pyFloat (totalImpactVal a) = .ok qv →
      mkRootCauseEntry r1.Service r1.Region r1.UsageType r1.LinkedAccount
        r1.LinkedAccountName (contributionVal r1) = .ok en1 →
      client (buildUsageQuery a.AnomalyStartDate.date a.AnomalyEndDate.date en1)
        = .error err →
      mkRootCauseEntry r2.Service r2.Region r2.UsageType r2.LinkedAccount
        r2.LinkedAccountName (contributionVal r2) = .ok en2 →
      client (buildUsageQuery a.AnomalyStartDate.date a.AnomalyEndDate.date en2)
        = .ok resp →
      resp.ResultsByTime = some buckets →
      parsePoints buckets = .ok pts →
      (processAnomaly client a).map
        (fun p => p.1.RootCauses.map (fun x => x.CostUsageGraph)) = .ok [[], pts]) := by
  refine ⟨?_, ?_, ?_, ?_⟩
  · intro client s e rc err h
    exact fetchErr client s e rc err h
  · intro client s e rc resp h1 h2
    simp only [fetch_cost_usage_for_root_cause, h1, h2, req, exBindOk, exBindErr]
  · intro client s e rc resp buckets err h1 h2 h3
    simp only [fetch_cost_usage_for_root_cause, h1, h2, h3, req, exBindOk]
  · intro client a r1 r2 en1 en2 err resp buckets pts qv hrc himp hm1 hq1 hm2 hq2 hr hp
    have f1 := fetchErr client a.AnomalyStartDate.date a.AnomalyEndDate.date en1 err hq1
    have f2 := fetchOk client a.AnomalyStartDate.date a.AnomalyEndDate.date en2 resp
      buckets pts hq2 hr hp
    simp only [processAnomaly, himp, hrc, processRootCauses, hm1, hm2, f1, f2,
      exBindOk, Except.map, List.map_cons, List.map_nil]
    simp [mkAnomalyEntry]

/-- Claim C3, witness: a concrete two-root-cause anomaly where the `AmazonEC2`
fetch fails and the `AmazonS3` fetch returns three buckets, plus concrete
instances of each caught error path — a failing client call, a response with
no `ResultsByTime` key, and a malformed bucket. -/
theorem c3_witness :
    (processAnomaly sibClient sibRecord).map
      (fun p => p.1.RootCauses.map (fun x => x.CostUsageGraph)) = .ok [[], cPts]
    ∧ fetch_cost_usage_for_root_cause sibClient 0 1 cEn1
      = { points := [], queries := [buildUsageQuery 0 1 cEn1], log := [cEn1.Service] }
    ∧ fetch_cost_usage_for_root_cause noResultsClient 0 1 emptyRootCauseEntry
      = { points := [], queries := [buildUsageQuery 0 1 emptyRootCauseEntry],
          log := [emptyRootCauseEntry.Service] }
    ∧ fetch_cost_usage_for_root_cause badBucketClient 0 1 emptyRootCauseEntry
      = { points := [], queries := [buildUsageQuery 0 1 emptyRootCauseEntry],
          log := [emptyRootCauseEntry.Service] } :=
  ⟨c3_theorem.2.2.2 sibClient sibRecord cR1 cR2 cEn1 cEn2 PyErr.keyError resp3
      [goodBucket, goodBucket, goodBucket] cPts 0 rfl rfl rfl rfl rfl rfl rfl rfl,
   c3_theorem.1 sibClient 0 1 cEn1 PyErr.keyError rfl,
   c3_theorem.2.1 noResultsClient 0 1 emptyRootCauseEntry
      { ResultsByTime := Option.none } rfl rfl,
   c3_theorem.2.2.1 badBucketClient 0 1 emptyRootCauseEntry
      { ResultsByTime := some [badBucket] } [badBucket] PyErr.keyError rfl rfl rfl⟩

/-- Claim C7, witness: a single-day anomaly at day 3 yields a width-1 window,
and the fetch against the trivial client issues the constructed query. -/
theorem c7_witness :
    (buildUsageQuery 3 3 emptyRootCauseEntry).TimePeriodEnd
      - (buildUsageQuery 3 3 emptyRootCauseEntry).TimePeriodStart = 1
    ∧ (fetch_cost_usage_for_root_cause trivialUsageClient 3 3 emptyRootCauseEntry).queries
      = [buildUsageQuery 3 3 emptyRootCauseEntry] :=
  ⟨(c7_theorem 3 3 emptyRootCauseEntry).2.2.2.2.2 rfl,
   (c7_theorem 3 3 emptyRootCauseEntry).2.2.2.2.1 trivialUsageClient⟩

/-- One unfolding step of the pagination loop. -/
theorem fetchAnomaliesGo_succ (c : ClientModel) (fuel : Nat) (tok : Option String)
    (output : List AnomalyEntry) (calls : Nat) :
    fetchAnomaliesGo c (fuel + 1) tok output calls
      = match c.get_anomalies (reqToken tok) with
        | .error e => some (.error e)
        | .ok response =>
          match processAnomalies c.get_cost_and_usage (response.Anomalies.getD []) with
          | .error e => some (.error e)
          | .ok (entries, _) =>
            if truthyOpt response.NextPageToken then
              fetchAnomaliesGo c fuel response.NextPageToken (output ++ entries) (calls + 1)
            else some (.ok (output ++ entries, calls + 1)) := rfl

/-- Claim C5: on a fixture whose pages chain through tokens A, B, C and then
return no token, the aggregator makes exactly 4 listing calls (for any spare
fuel) and returns the concatenation of the four pages' processed anomalies in
page-arrival order. -/
theorem c5_theorem (c : ClientModel) (a0 a1 a2 a3 : List AnomalyRecord)
    (e0 e1 e2 e3 : List AnomalyEntry) (q0 q1 q2 q3 : List UsageQuery) (n : Nat)
    (h0 : c.get_anomalies Option.none
      = .ok { Anomalies := some a0, NextPageToken := some "A" })
    (h1 : c.get_anomalies (some "A")
      = .ok { Anomalies := some a1, NextPageToken := some "B" })
    (h2 : c.get_anomalies (some "B")
      = .ok { Anomalies := some a2, NextPageToken := some "C" })
    (h3 : c.get_anomalies (some "C")
      = .ok { Anomalies := some a3, NextPageToken := Option.none })
    (p0 : processAnomalies c.get_cost_and_usage a0 = .ok (e0, q0))
    (p1 : processAnomalies c.get_cost_and_usage a1 = .ok (e1, q1))
    (p2 : processAnomalies c.get_cost_and_usage a2 = .ok (e2, q2))
    (p3 : processAnomalies c.get_cost_and_usage a3 = .ok (e3, q3)) :
    fetch_anomalies c (n + 4) = some (.ok (e0 ++ e1 ++ e2 ++ e3, 4)) := by
  have tN : truthyOpt Option.none = false := rfl
  have tA : truthyOpt (some "A") = true := rfl
  have tB : truthyOpt (some "B") = true := rfl
  have tC : truthyOpt (some "C") = true := rfl
  have rN : reqToken Option.none = Option.none := rfl
  have rA : reqToken (some "A") = some "A" := rfl
  have rB : reqToken (some "B") = some "B" := rfl
  have rC : reqToken (some "C") = some "C" := rfl
  rw [show n + 4 = n + 1 + 1 + 1 + 1 from rfl]
  simp only [fetch_anomalies, fetchAnomaliesGo_succ, rN, rA, rB, rC, tN, tA, tB, tC,
    h0, h1, h2, h3, p0, p1, p2, p3, Option.getD]
  simp [List.append_assoc]

/-- Claim C5, witness: the concrete four-page fixture client terminates after
exactly 4 calls with the concatenated (here empty) output. -/
theorem c5_witness : fetch_anomalies fixtureClient 4 = some (.ok ([], 4)) := by
  have h := c5_theorem fixtureClient [] [] [] [] [] [] [] [] [] [] [] [] 0
    rfl rfl rfl rfl rfl rfl rfl rfl
  simpa using h

/-- The repeating-token client makes the loop spin forever: no fuel bound is
ever enough, from any loop state. -/
theorem repeatGo (fuel : Nat) :
    ∀ (tok : Option String) (output : List AnomalyEntry) (calls : Nat),
      fetchAnomaliesGo repeatTokenClient fuel tok output calls = Option.none := by
  induction fuel with
  | zero => intro tok output calls; rfl
  | succ m ih =>
    intro tok output calls
    have hg : ∀ x : Option String, repeatTokenClient.get_anomalies x
        = .ok { Anomalies := some [], NextPageToken := some "A" } := fun _ => rfl
    have tA : truthyOpt (some "A") = true := rfl
    rw [fetchAnomaliesGo_succ]
    simp [hg, processAnomalies, tA, ih]

/-- Claim C9 (amended): the pagination loop validates nothing about the
continuation token: whenever a page call succeeds, the loop repeats with
exactly the returned token if it is truthy and stops (successfully) exactly
when it is falsy.  In particular a server that repeats the same token makes
the run loop forever instead of failing fatally (see the counterexample). -/
theorem c9_theorem :
    (∀ fuel : Nat, fetch_anomalies repeatTokenClient fuel = Option.none)
    ∧ (∀ (c : ClientModel) (fuel : Nat) (tok : Option String)
        (output : List AnomalyEntry) (calls : Nat) (response : ListResponse)
        (entries : List AnomalyEntry) (qs : List UsageQuery),
      c.get_anomalies (reqToken tok) = .ok response →
      processAnomalies c.get_cost_and_usage (response.Anomalies.getD [])
        = .ok (entries, qs) →
      fetchAnomaliesGo c (fuel + 1) tok output calls
        = if truthyOpt response.NextPageToken then
            fetchAnomaliesGo c fuel response.NextPageToken (output ++ entries)
              (calls + 1)
          else some (.ok (output ++ entries, calls + 1))) := by
  constructor
  · intro fuel
    exact repeatGo fuel Option.none [] 0
  · intro c fuel tok output calls response entries qs hg hp
    simp only [fetchAnomaliesGo_succ, hg, hp]

/-- Claim C9, refuting the original statement: against the repeating-token
server the aggregation neither terminates nor surfaces an error — it never
finishes at all. -/
theorem c9_counterexample : neverTerminates repeatTokenClient := by
  intro fuel
  exact repeatGo fuel Option.none [] 0

/-- Claim C9, witness: the repeating-token client exhausts any concrete fuel,
while a client returning no token stops after one call. -/
theorem c9_witness :
    fetch_anomalies repeatTokenClient 7 = Option.none
    ∧ fetchAnomaliesGo haltClient 1 Option.none [] 0 = some (.ok ([], 1)) := by
  constructor
  · exact c9_theorem.1 7
  · have h := c9_theorem.2 haltClient 0 Option.none [] 0
      { Anomalies := some [], NextPageToken := Option.none } [] [] rfl rfl
    simpa [truthyOpt] using h

end AwsAnomaly
